import Mathlib

/-!
Verification of the booking-state coordinator backend (`src/lib/app.js`).

The relational store is modelled as an explicit state (`DB`) holding the three
tables (`rooms`, `room_availability`, `bookings`).  Each route handler is a
function from the request parameters, an oracle describing which store calls
succeed, and the current state, to a response paired with the next state.
The JavaScript string helpers used by the handlers (`split`, `parseInt`,
`toLowerCase`, `endsWith`) are modelled structurally over character lists so
that every definition evaluates inside the kernel.
-/

set_option linter.unusedVariables false

/-! ## JavaScript string primitives -/

/-- `String.prototype.split` with a single-character separator: splitting an
empty string yields `[""]`, and separators at the ends produce empty pieces. -/
def splitOnChar (c : Char) : List Char → List (List Char)
  | [] => [[]]
  | x :: xs =>
    let r := splitOnChar c xs
    if x = c then [] :: r
    else
      match r with
      | [] => [[x]]
      | y :: ys => (x :: y) :: ys

/-- The maximal run of leading decimal digits, used to model `parseInt`. -/
def leadingDigits : List Char → List Char
  | [] => []
  | c :: cs => if c.isDigit then c :: leadingDigits cs else []

/-- Numeric value of a digit run. -/
def digitsVal (ds : List Char) : Nat :=
  ds.foldl (fun acc c => acc * 10 + (c.toNat - 48)) 0

/-- `parseInt` on a base-10 string: `none` models `NaN` (no leading digits). -/
def jsParseInt (cs : List Char) : Option Nat :=
  match leadingDigits cs with
  | [] => none
  | ds => some (digitsVal ds)

/-- `String.prototype.endsWith`. -/
def jsEndsWith (s pat : String) : Bool := pat.data.isSuffixOf s.data

/-- `String.prototype.toLowerCase` (ASCII, which covers every status literal
the handlers compare). -/
def jsToLowerCase (s : String) : String := String.mk (s.data.map Char.toLower)

/-! ## `isTimeSlotValid` (app.js lines 35-51)

A slot label `"HH:MM-HH:MM"` is valid while the current wall-clock time
(modelled in minutes since midnight) is before the end time.  A label that
does not split into exactly two times, or whose end time does not parse,
is invalid, mirroring the `NaN`/invalid-date fallthrough of the source. -/

def isTimeSlotValid (now : Nat) (timeSlot : String) : Bool :=
  match splitOnChar '-' timeSlot.data with
  | [_, endTime] =>
    match splitOnChar ':' endTime with
    | endHour :: endMinute :: _ =>
      match jsParseInt endHour, jsParseInt endMinute with
      | some eh, some em => decide (now < eh * 60 + em)
      | _, _ => false
    | _ => false
  | _ => false

/-! ## `userType` derivation (app.js lines 140-142, POST /api/login) -/

def userType (email : String) : String :=
  if jsEndsWith email "@mfu.th" then "staff"
  else if jsEndsWith email "@mfu.ac.th" then "lecturer"
  else "student"

/-! ## Data model

`room_availability` rows, `bookings` rows and `rooms` rows, restricted to the
columns the verified handlers read or write. -/

inductive SlotStatus
  | free
  | pending
  | reserved
  | disabled
deriving DecidableEq, Repr

/-- One `room_availability` row. -/
structure Slot where
  roomId : String
  date : String
  timeSlot : String
  status : SlotStatus
  studentId : Option String
  bookingId : Option String
deriving DecidableEq, Repr

/-- One `bookings` row. -/
structure Booking where
  id : String
  studentId : String
  roomId : String
  bookingDate : String
  timeSlot : String
  status : String
  approvedBy : Option String
  approvedAt : Option String
deriving DecidableEq, Repr

/-- One `rooms` row (only the columns the handlers touch). -/
structure Room where
  id : String
  isDisabled : Bool
deriving DecidableEq, Repr

/-- The relational store. -/
structure DB where
  rooms : List Room
  slots : List Slot
  bookings : List Booking
deriving DecidableEq, Repr

/-! ## Booking creation (POST /api/bookings, app.js lines 313-392)

Each `con.query` round trip is one of the helpers below; `bookOp` chains them
exactly as the callbacks do.  The oracle records which store calls succeed
(`false` = the query returns an error to its callback). -/

/-- `checkSql`: the student's bookings for the target date (any status). -/
def dailyBookings (today sid : String) (db : DB) : List Booking :=
  db.bookings.filter (fun b => decide (b.studentId = sid ∧ b.bookingDate = today))

/-- `slotCheckSql`: rows for the slot that are `free` with an unbound
(`NULL` or empty) student. -/
def freeSlotRows (rid today ts : String) (db : DB) : List Slot :=
  db.slots.filter (fun sl => decide (sl.roomId = rid ∧ sl.date = today ∧
    sl.timeSlot = ts ∧ sl.status = SlotStatus.free ∧
    (sl.studentId = none ∨ sl.studentId = some "")))

/-- `statusCheckSql`: all rows for the slot, used for the refined message. -/
def slotStatusRows (rid today ts : String) (db : DB) : List Slot :=
  db.slots.filter (fun sl => decide (sl.roomId = rid ∧ sl.date = today ∧
    sl.timeSlot = ts))

/-- The refined unavailability message derived from the slot row
(app.js lines 353-358). -/
def slotUnavailableMessage (sl : Slot) : String :=
  if sl.status = SlotStatus.pending then "Time slot is already pending approval"
  else if sl.status = SlotStatus.reserved then "Time slot is already reserved"
  else if sl.studentId ≠ none ∧ sl.studentId ≠ some "" then
    "Time slot is already booked by another student"
  else "Time slot not available"

/-- The row `bookingSql` inserts. -/
def newBookingRow (bid sid rid today ts : String) : Booking :=
  { id := bid, studentId := sid, roomId := rid, bookingDate := today,
    timeSlot := ts, status := "Pending", approvedBy := none,
    approvedAt := none }

/-- `bookingSql`: append the new `Pending` booking row. -/
def insertBookingRow (bid sid rid today ts : String) (db : DB) : DB :=
  { db with bookings := db.bookings ++ [newBookingRow bid sid rid today ts] }

/-- `updateSql`: set every row for the slot to `pending` bound to the student.
The `WHERE` clause names only room, date and time slot — it does not re-check
that the row is still `free` and unbound. -/
def bindSlotPending (sid rid today ts : String) (db : DB) : DB :=
  { db with slots := db.slots.map (fun sl =>
      if sl.roomId = rid ∧ sl.date = today ∧ sl.timeSlot = ts then
        { sl with status := SlotStatus.pending, studentId := some sid }
      else sl) }

/-- `rollbackSql`: delete the booking row again. -/
def deleteBookingRow (bid : String) (db : DB) : DB :=
  { db with bookings := db.bookings.filter (fun b => decide (b.id ≠ bid)) }

structure BookOracle where
  dailyOk : Bool
  slotOk : Bool
  statusOk : Bool
  insertOk : Bool
  updateOk : Bool
  rollbackOk : Bool
deriving DecidableEq, Repr

inductive BookResult
  | validationError (msg : String)
  | expired
  | serverError (msg : String)
  | dailyLimit
  | slotUnavailable (msg : String)
  | success (bookingId : String)
deriving DecidableEq, Repr

/-- POST /api/bookings.  `now` is the wall-clock time in minutes since
midnight and `bid` the generated `'book_' + Date.now()` identifier; the
insert also fails (`ER_DUP_ENTRY` on the primary key) when a booking with
that id already exists. -/
def bookOp (o : BookOracle) (now : Nat) (today sid rid ts bid : String)
    (db : DB) : BookResult × DB :=
  if sid = "" ∨ rid = "" ∨ ts = "" then
    (.validationError "Missing required fields", db)
  else if isTimeSlotValid now ts = false then (.expired, db)
  else if o.dailyOk = false then
    (.serverError "Server error checking bookings", db)
  else if dailyBookings today sid db ≠ [] then (.dailyLimit, db)
  else if o.slotOk = false then
    (.serverError "Server error checking availability", db)
  else if freeSlotRows rid today ts db = [] then
    if o.statusOk = false then (.slotUnavailable "Time slot not available", db)
    else
      match slotStatusRows rid today ts db with
      | [] => (.slotUnavailable "Time slot not available", db)
      | sl :: _ => (.slotUnavailable (slotUnavailableMessage sl), db)
  else if o.insertOk = false ∨ db.bookings.any (fun b => decide (b.id = bid)) then
    (.serverError "Database error creating booking", db)
  else
    let db1 := insertBookingRow bid sid rid today ts db
    if o.updateOk = false then
      (.serverError "Booking update failed",
       if o.rollbackOk then deleteBookingRow bid db1 else db1)
    else (.success bid, bindSlotPending sid rid today ts db1)

/-! ## Booking decision (PUT /api/bookings/:bookingId/status, app.js 471-516) -/

structure DecideOracle where
  getOk : Bool
  updateOk : Bool
  slotOk : Bool
deriving DecidableEq, Repr

inductive DecideResult
  | serverError (msg : String)
  | notFound
  | success
deriving DecidableEq, Repr

/-- `status.toLowerCase() === 'approved' ? 'reserved' : 'free'`. -/
def decidedStatusToSlot (st : String) : SlotStatus :=
  if jsToLowerCase st = "approved" then SlotStatus.reserved else SlotStatus.free

/-- `updateBookingSql` applied to one row. -/
def decideBookingUpd (bid st approver now : String) (b : Booking) : Booking :=
  if b.id = bid then
    { b with status := st, approvedBy := some approver, approvedAt := some now }
  else b

/-- The booking loaded by `getBookingSql` matches a slot row on room, date,
time slot and bound student. -/
def bookingMatchesSlot (b : Booking) (sl : Slot) : Prop :=
  b.roomId = sl.roomId ∧ b.bookingDate = sl.date ∧ b.timeSlot = sl.timeSlot ∧
    some b.studentId = sl.studentId

instance (b : Booking) (sl : Slot) : Decidable (bookingMatchesSlot b sl) := by
  unfold bookingMatchesSlot; exact inferInstance

/-- `updateAvailabilitySql` applied to one row (it sets only `status`;
the bound student is left in place). -/
def decideSlotUpd (bk : Booking) (st : String) (sl : Slot) : Slot :=
  if bookingMatchesSlot bk sl then { sl with status := decidedStatusToSlot st }
  else sl

/-- PUT /api/bookings/:bookingId/status.  A failure of the availability
update is logged only; the handler still answers success. -/
def decideOp (o : DecideOracle) (now bid st approver : String) (db : DB) :
    DecideResult × DB :=
  if o.getOk = false then (.serverError "Failed to get booking details", db)
  else
    match db.bookings.filter (fun b => decide (b.id = bid)) with
    | [] => (.notFound, db)
    | bk :: _ =>
      if o.updateOk = false then (.serverError "Update failed", db)
      else
        (.success,
         { db with
            bookings := db.bookings.map (decideBookingUpd bid st approver now),
            slots := if o.slotOk then db.slots.map (decideSlotUpd bk st)
                     else db.slots })

/-! ## Room and slot enable/disable (app.js 831-1001) -/

structure RoomOracle where
  checkOk : Bool
  slotsOk : Bool
  roomOk : Bool
deriving DecidableEq, Repr

inductive OpResult
  | serverError (msg : String)
  | conflict (msg : String)
  | notFound (msg : String)
  | invalid (msg : String)
  | success
deriving DecidableEq, Repr

/-- `checkSql` of PATCH /api/rooms/:roomId/disable: rows of the room for the
date whose status is not `free` (this counts `disabled` rows too). -/
def roomSlotsNotFree (rid today : String) (db : DB) : Nat :=
  db.slots.countP (fun sl => decide (sl.roomId = rid ∧ sl.date = today ∧
    sl.status ≠ SlotStatus.free))

/-- PATCH /api/rooms/:roomId/disable. -/
def roomDisableOp (o : RoomOracle) (today rid : String) (db : DB) :
    OpResult × DB :=
  if o.checkOk = false then (.serverError "Server error", db)
  else if 0 < roomSlotsNotFree rid today db then
    (.conflict "Cannot disable room with booked or pending slots", db)
  else if o.slotsOk = false then
    (.serverError "Failed to disable time slots", db)
  else
    let db1 := { db with slots := db.slots.map (fun sl =>
        if sl.roomId = rid ∧ sl.date = today ∧ sl.status = SlotStatus.free then
          { sl with status := SlotStatus.disabled }
        else sl) }
    if o.roomOk = false then (.serverError "Failed to disable room", db1)
    else
      (.success, { db1 with rooms := db1.rooms.map (fun r =>
          if r.id = rid then { r with isDisabled := true } else r) })

/-- PATCH /api/rooms/:roomId/enable (the `checkOk` field is unused: the
handler has no precondition query). -/
def roomEnableOp (o : RoomOracle) (today rid : String) (db : DB) :
    OpResult × DB :=
  if o.slotsOk = false then (.serverError "Failed to enable time slots", db)
  else
    let db1 := { db with slots := db.slots.map (fun sl =>
        if sl.roomId = rid ∧ sl.date = today ∧ sl.status = SlotStatus.disabled then
          { sl with status := SlotStatus.free }
        else sl) }
    if o.roomOk = false then (.serverError "Failed to enable room", db1)
    else
      (.success, { db1 with rooms := db1.rooms.map (fun r =>
          if r.id = rid then { r with isDisabled := false } else r) })

structure SlotDisableOracle where
  checkOk : Bool
  updateOk : Bool
  allCheckOk : Bool
  roomOk : Bool
deriving DecidableEq, Repr

/-- PATCH /api/rooms/:roomId/time-slots/:timeSlot/disable.  The room-level
mark is a fire-and-forget query: its outcome never reaches the response. -/
def slotDisableOp (o : SlotDisableOracle) (today rid ts : String) (db : DB) :
    OpResult × DB :=
  if o.checkOk = false then (.serverError "Server error", db)
  else
    match slotStatusRows rid today ts db with
    | [] => (.notFound "Time slot not found", db)
    | sl :: _ =>
      if sl.status ≠ SlotStatus.free then
        (.invalid "Can only disable free time slots", db)
      else if o.updateOk = false then
        (.serverError "Failed to disable time slot", db)
      else
        let db1 := { db with slots := db.slots.map (fun s =>
            if s.roomId = rid ∧ s.date = today ∧ s.timeSlot = ts then
              { s with status := SlotStatus.disabled }
            else s) }
        if o.allCheckOk = false then (.serverError "Server error", db1)
        else
          let rows := db1.slots.filter (fun s => decide (s.roomId = rid ∧
            s.date = today))
          if rows.countP (fun s => decide (s.status = SlotStatus.disabled)) =
              rows.length then
            (.success,
             if o.roomOk then
               { db1 with rooms := db1.rooms.map (fun r =>
                   if r.id = rid then { r with isDisabled := true } else r) }
             else db1)
          else (.success, db1)

structure SlotEnableOracle where
  updateOk : Bool
  roomOk : Bool
deriving DecidableEq, Repr

/-- PATCH /api/rooms/:roomId/time-slots/:timeSlot/enable.  The slot update is
conditional on the row being `disabled`; the room record is then marked
enabled unconditionally, fire-and-forget. -/
def slotEnableOp (o : SlotEnableOracle) (today rid ts : String) (db : DB) :
    OpResult × DB :=
  if o.updateOk = false then (.serverError "Failed to enable time slot", db)
  else
    let db1 := { db with slots := db.slots.map (fun sl =>
        if sl.roomId = rid ∧ sl.date = today ∧ sl.timeSlot = ts ∧
            sl.status = SlotStatus.disabled then
          { sl with status := SlotStatus.free }
        else sl) }
    (.success,
     if o.roomOk then
       { db1 with rooms := db1.rooms.map (fun r =>
           if r.id = rid then { r with isDisabled := false } else r) }
     else db1)

/-! ## Daily reset (`resetRoomStatuses`, app.js lines 15-33)

The handler computes the date one calendar day ahead of the run time and
rewrites that date's occupied rows; the date string it computes is taken here
as the parameter `tomorrowStr`. -/

def resetSlotUpd (tomorrowStr : String) (sl : Slot) : Slot :=
  if sl.date = tomorrowStr ∧
      (sl.status = SlotStatus.pending ∨ sl.status = SlotStatus.reserved) then
    { sl with status := SlotStatus.free, studentId := none, bookingId := none }
  else sl

def resetOp (tomorrowStr : String) (db : DB) : DB :=
  { db with slots := db.slots.map (resetSlotUpd tomorrowStr) }

/-! ## Slot materialization (GET /api/rooms/:roomId/time-slots, app.js 244-311)

The four default labels are inserted one query per label; the errors are
collected and only reported after every insert completed, so a failing insert
does not stop the others. -/

def defaultTimeSlots : List String :=
  ["08:00-10:00", "10:00-12:00", "13:00-15:00", "15:00-17:00"]

/-- `INSERT IGNORE`: the row is added unless one with the same composite key
already exists. -/
def insertIgnoreSlot (rid today label : String) (db : DB) : DB :=
  if db.slots.any (fun s => decide (s.roomId = rid ∧ s.date = today ∧
      s.timeSlot = label)) then db
  else
    { db with slots := db.slots ++
        [{ roomId := rid, date := today, timeSlot := label,
           status := SlotStatus.free, studentId := none, bookingId := none }] }

/-- Run the per-label inserts; the returned flag records whether any insert
errored.  A label whose oracle entry is missing is treated as succeeding. -/
def runInserts (rid today : String) : List String → List Bool → DB → DB × Bool
  | [], _, db => (db, false)
  | l :: ls, [], db =>
    runInserts rid today ls [] (insertIgnoreSlot rid today l db)
  | l :: ls, ok :: rest, db =>
    let db1 := if ok then insertIgnoreSlot rid today l db else db
    let r := runInserts rid today ls rest db1
    (r.1, !ok || r.2)

structure MaterializeOracle where
  selectOk : Bool
  insertOks : List Bool
  fetchOk : Bool
deriving DecidableEq, Repr

inductive MatResult
  | serverError (msg : String)
  | ok (slots : List Slot)
deriving DecidableEq, Repr

/-- GET /api/rooms/:roomId/time-slots. -/
def materializeOp (o : MaterializeOracle) (now : Nat) (rid today : String)
    (db : DB) : MatResult × DB :=
  if o.selectOk = false then (.serverError "Server error", db)
  else
    let results := db.slots.filter (fun s => decide (s.roomId = rid ∧
      s.date = today))
    let validSlots := results.filter (fun s => isTimeSlotValid now s.timeSlot)
    if validSlots ≠ [] then (.ok validSlots, db)
    else
      let validLabels := defaultTimeSlots.filter (fun l => isTimeSlotValid now l)
      if validLabels = [] then (.ok [], db)
      else
        let r := runInserts rid today validLabels o.insertOks db
        if r.2 then (.serverError "Failed to initialize time slots", r.1)
        else if o.fetchOk = false then (.serverError "Server error", r.1)
        else
          let fetched := r.1.slots.filter (fun s => decide (s.roomId = rid ∧
            s.date = today))
          (.ok (fetched.filter (fun s => isTimeSlotValid now s.timeSlot)), r.1)

/-! ## Reachable states

The failure-free instances of the oracles, the atomic step relation over the
public operations named by the invariant claims, and reachability from an
initial store (no bookings, every slot row `free` or `disabled` and unbound —
the shape produced by materialization and room creation). -/

def allOkBook : BookOracle := ⟨true, true, true, true, true, true⟩
def allOkDecide : DecideOracle := ⟨true, true, true⟩
def allOkRoom : RoomOracle := ⟨true, true, true⟩
def allOkSlotDisable : SlotDisableOracle := ⟨true, true, true, true⟩
def allOkSlotEnable : SlotEnableOracle := ⟨true, true⟩

inductive Step : DB → DB → Prop
  | book (now : Nat) (today sid rid ts bid : String) (db : DB) :
      Step db (bookOp allOkBook now today sid rid ts bid db).2
  | decideBooking (now bid st approver : String) (db : DB) :
      Step db (decideOp allOkDecide now bid st approver db).2
  | roomDisable (today rid : String) (db : DB) :
      Step db (roomDisableOp allOkRoom today rid db).2
  | roomEnable (today rid : String) (db : DB) :
      Step db (roomEnableOp allOkRoom today rid db).2
  | slotDisable (today rid ts : String) (db : DB) :
      Step db (slotDisableOp allOkSlotDisable today rid ts db).2
  | slotEnable (today rid ts : String) (db : DB) :
      Step db (slotEnableOp allOkSlotEnable today rid ts db).2
  | reset (tomorrowStr : String) (db : DB) :
      Step db (resetOp tomorrowStr db)

def InitialState (db : DB) : Prop :=
  db.bookings = [] ∧ ∀ sl ∈ db.slots,
    (sl.status = SlotStatus.free ∨ sl.status = SlotStatus.disabled) ∧
      sl.studentId = none

instance (db : DB) : Decidable (InitialState db) := by
  unfold InitialState; exact inferInstance

inductive Reach : DB → Prop
  | start (db : DB) : InitialState db → Reach db
  | step (db db2 : DB) : Reach db → Step db db2 → Reach db2

/-! ## Invariants

`specSlotBookingInvariant` is modelled from the spec's wording of claim C2
(the per-slot three-way correspondence), for comparison with
`reachableSlotInvariant`, the part the code actually maintains. -/

/-- Modelled from the spec: "a slot with status `pending` or `reserved` MUST
have a non-null bound student; a slot with status `free` or `disabled` MUST
have a null bound student", and "a slot is pending or reserved if and only if
a Booking with the matching composite key and corresponding status
(Pending↔pending, Approved↔reserved) exists". -/
def specSlotBookingInvariant (db : DB) : Prop :=
  ∀ sl ∈ db.slots,
    ((sl.status = SlotStatus.pending ∨ sl.status = SlotStatus.reserved) →
      sl.studentId ≠ none)
    ∧ ((sl.status = SlotStatus.free ∨ sl.status = SlotStatus.disabled) →
      sl.studentId = none)
    ∧ ((sl.status = SlotStatus.pending ∨ sl.status = SlotStatus.reserved) ↔
      ∃ b ∈ db.bookings, bookingMatchesSlot b sl ∧
        ((b.status = "Pending" ∧ sl.status = SlotStatus.pending) ∨
         (b.status = "Approved" ∧ sl.status = SlotStatus.reserved)))

instance (db : DB) : Decidable (specSlotBookingInvariant db) := by
  unfold specSlotBookingInvariant; exact inferInstance

/-- The slot/booking correspondence the code maintains: occupied slots are
bound, a `pending` slot is backed by a `Pending` booking on the full composite
key, and a `reserved` slot by a booking whose status lowercases to
`approved`. -/
def reachableSlotInvariant (db : DB) : Prop :=
  ∀ sl ∈ db.slots,
    ((sl.status = SlotStatus.pending ∨ sl.status = SlotStatus.reserved) →
      sl.studentId ≠ none)
    ∧ (sl.status = SlotStatus.pending →
      ∃ b ∈ db.bookings, bookingMatchesSlot b sl ∧ b.status = "Pending")
    ∧ (sl.status = SlotStatus.reserved →
      ∃ b ∈ db.bookings, bookingMatchesSlot b sl ∧
        jsToLowerCase b.status = "approved")

instance (db : DB) : Decidable (reachableSlotInvariant db) := by
  unfold reachableSlotInvariant; exact inferInstance

/-- Primary-key uniqueness of booking ids, maintained because the insert
fails with `ER_DUP_ENTRY` on a duplicate. -/
def bookingIdsUnique (db : DB) : Prop := (db.bookings.map (fun b => b.id)).Nodup

def stateInvariant (db : DB) : Prop :=
  bookingIdsUnique db ∧ reachableSlotInvariant db

/-! ## Concrete stores used by the evidence theorems and witnesses -/

/-- One free, unbound slot; no bookings. -/
def raceDB0 : DB :=
  { rooms := [{ id := "room1", isDisabled := false }],
    slots := [{ roomId := "room1", date := "2025-10-12", timeSlot := "08:00-10:00",
                status := SlotStatus.free, studentId := none, bookingId := none }],
    bookings := [] }

/-- State after the write phase of `book(S1)`. -/
def raceDB1 : DB :=
  bindSlotPending "S1" "room1" "2025-10-12" "08:00-10:00"
    (insertBookingRow "b1" "S1" "room1" "2025-10-12" "08:00-10:00" raceDB0)

/-- State after the write phase of `book(S2)` runs on top of `raceDB1`,
its precondition checks having been answered at `raceDB0`. -/
def raceDB2 : DB :=
  bindSlotPending "S2" "room1" "2025-10-12" "08:00-10:00"
    (insertBookingRow "b2" "S2" "room1" "2025-10-12" "08:00-10:00" raceDB1)

def cdb2 : DB :=
  { rooms := [{ id := "room1", isDisabled := false }],
    slots := [{ roomId := "room1", date := "2025-10-12", timeSlot := "08:00-10:00",
                status := SlotStatus.free, studentId := none, bookingId := none }],
    bookings := [] }

/-- `cdb2` after a successful booking by `S1`. -/
def cdb2a : DB := (bookOp allOkBook 0 "2025-10-12" "S1" "room1" "08:00-10:00" "b1" cdb2).2

/-- `cdb2a` after the booking is rejected. -/
def cdb2b : DB := (decideOp allOkDecide "t1" "b1" "Rejected" "L1" cdb2a).2

/-- `cdb2a` after a decision with the all-caps status string. -/
def cdb2c : DB := (decideOp allOkDecide "t1" "b1" "APPROVED" "L1" cdb2a).2

def cdb3 : DB :=
  { rooms := [{ id := "room1", isDisabled := false }],
    slots := [{ roomId := "room1", date := "2025-10-12", timeSlot := "08:00-10:00",
                status := SlotStatus.free, studentId := none, bookingId := none }],
    bookings := [] }

/-- Availability update and compensating delete both fail. -/
def failUpdateAndRollback : BookOracle := ⟨true, true, true, true, false, false⟩

/-- Availability update fails, compensating delete succeeds. -/
def failUpdateOnly : BookOracle := ⟨true, true, true, true, false, true⟩

def cdb4 : DB :=
  { rooms := [{ id := "room1", isDisabled := false }],
    slots := [{ roomId := "room1", date := "2025-10-12", timeSlot := "08:00-10:00",
                status := SlotStatus.pending, studentId := some "S1", bookingId := none }],
    bookings := [{ id := "b1", studentId := "S1", roomId := "room1",
                   bookingDate := "2025-10-12", timeSlot := "08:00-10:00",
                   status := "Pending", approvedBy := none, approvedAt := none }] }

/-- A room whose only slot today is already disabled (and unbound). -/
def cdb5 : DB :=
  { rooms := [{ id := "room1", isDisabled := false }],
    slots := [{ roomId := "room1", date := "2025-10-12", timeSlot := "08:00-10:00",
                status := SlotStatus.disabled, studentId := none, bookingId := none }],
    bookings := [] }

/-- A room whose slots today are all free. -/
def wdb5 : DB :=
  { rooms := [{ id := "room1", isDisabled := false }],
    slots := [{ roomId := "room1", date := "2025-10-12", timeSlot := "08:00-10:00",
                status := SlotStatus.free, studentId := none, bookingId := none },
              { roomId := "room1", date := "2025-10-12", timeSlot := "10:00-12:00",
                status := SlotStatus.free, studentId := none, bookingId := none }],
    bookings := [] }

def matDB0 : DB := { rooms := [{ id := "room1", isDisabled := false }],
                     slots := [], bookings := [] }

/-- The second of the four default-slot inserts fails. -/
def matOracle : MaterializeOracle := ⟨true, [true, false, true, true], true⟩

/-- A disabled, unbound slot: unavailable, but matching none of the three
refined reasons. -/
def cdb8 : DB :=
  { rooms := [{ id := "room1", isDisabled := false }],
    slots := [{ roomId := "room1", date := "2025-10-12", timeSlot := "08:00-10:00",
                status := SlotStatus.disabled, studentId := none, bookingId := none }],
    bookings := [] }

/-- A pending slot row bound to another student. -/
def wdb8slot : Slot :=
  { roomId := "room1", date := "2025-10-12", timeSlot := "08:00-10:00",
    status := SlotStatus.pending, studentId := some "S2", bookingId := none }

/-- A pending slot bound to another student. -/
def wdb8 : DB :=
  { rooms := [{ id := "room1", isDisabled := false }],
    slots := [{ roomId := "room1", date := "2025-10-12", timeSlot := "08:00-10:00",
                status := SlotStatus.pending, studentId := some "S2", bookingId := none }],
    bookings := [] }

/-- A disabled room with one pending (not disabled) slot today. -/
def wdb10 : DB :=
  { rooms := [{ id := "room1", isDisabled := true }],
    slots := [{ roomId := "room1", date := "2025-10-12", timeSlot := "08:00-10:00",
                status := SlotStatus.pending, studentId := some "S1", bookingId := none }],
    bookings := [] }

/-! ## C9: user-type derivation -/

lemma mfu_suffix_disjoint (e : String) (h : jsEndsWith e "@mfu.ac.th" = true) :
    jsEndsWith e "@mfu.th" = false := by
  cases hb : jsEndsWith e "@mfu.th" with
  | false => rfl
  | true =>
    exfalso
    have h1 : "@mfu.ac.th".data <:+ e.data := List.isSuffixOf_iff_suffix.1 h
    have h2 : "@mfu.th".data <:+ e.data := List.isSuffixOf_iff_suffix.1 hb
    rcases List.suffix_or_suffix_of_suffix h1 h2 with h3 | h3
    · exact absurd h3 (by decide)
    · exact absurd h3 (by decide)

/-- Claim C9: the user type derived at login is a pure function of the email's
domain suffix: `@mfu.th` → staff, `@mfu.ac.th` → lecturer, anything else →
student. -/
theorem c9_userType_pure (e : String) :
    (jsEndsWith e "@mfu.th" = true → userType e = "staff")
    ∧ (jsEndsWith e "@mfu.ac.th" = true → userType e = "lecturer")
    ∧ (jsEndsWith e "@mfu.th" = false → jsEndsWith e "@mfu.ac.th" = false →
        userType e = "student") := by
  refine ⟨?_, ?_, ?_⟩
  · intro h; unfold userType; rw [h]; rfl
  · intro h
    unfold userType
    rw [mfu_suffix_disjoint e h, h]
    rfl
  · intro h1 h2; unfold userType; rw [h1, h2]; rfl

/-- Witness for C9 at three concrete addresses. -/
theorem c9_userType_witness :
    userType "alice@mfu.th" = "staff" ∧ userType "bob@mfu.ac.th" = "lecturer"
    ∧ userType "carol@gmail.com" = "student" :=
  ⟨(c9_userType_pure "alice@mfu.th").1 (by decide),
   (c9_userType_pure "bob@mfu.ac.th").2.1 (by decide),
   (c9_userType_pure "carol@gmail.com").2.2 (by decide) (by decide)⟩

/-! ## C6: daily reset -/

/-- Claim C6: a reset run frees (and unbinds) exactly the pending/reserved
slots dated one day ahead of the run (the `tomorrowStr` the handler computes),
leaves every other slot unchanged, and is idempotent. -/
theorem c6_daily_reset (tomorrowStr : String) (db : DB) :
    (resetOp tomorrowStr db).rooms = db.rooms
    ∧ (resetOp tomorrowStr db).bookings = db.bookings
    ∧ (resetOp tomorrowStr db).slots = db.slots.map (resetSlotUpd tomorrowStr)
    ∧ (∀ sl : Slot, sl.date = tomorrowStr →
        (sl.status = SlotStatus.pending ∨ sl.status = SlotStatus.reserved) →
        resetSlotUpd tomorrowStr sl =
          { sl with status := SlotStatus.free, studentId := none,
                    bookingId := none })
    ∧ (∀ sl : Slot,
        ¬(sl.date = tomorrowStr ∧
          (sl.status = SlotStatus.pending ∨ sl.status = SlotStatus.reserved)) →
        resetSlotUpd tomorrowStr sl = sl)
    ∧ resetOp tomorrowStr (resetOp tomorrowStr db) = resetOp tomorrowStr db := by
  have huu : ∀ sl, resetSlotUpd tomorrowStr (resetSlotUpd tomorrowStr sl) =
      resetSlotUpd tomorrowStr sl := by
    intro sl
    by_cases h : sl.date = tomorrowStr ∧
        (sl.status = SlotStatus.pending ∨ sl.status = SlotStatus.reserved)
    · unfold resetSlotUpd
      rw [if_pos h, if_neg]
      simp
    · unfold resetSlotUpd
      rw [if_neg h, if_neg h]
  refine ⟨rfl, rfl, rfl, ?_, ?_, ?_⟩
  · intro sl h1 h2; unfold resetSlotUpd; rw [if_pos ⟨h1, h2⟩]
  · intro sl h; unfold resetSlotUpd; rw [if_neg h]
  · unfold resetOp
    congr 1
    rw [List.map_map]
    exact List.map_congr_left (fun sl _ => huu sl)

/-- Witness for C6: tomorrow's reserved slot is freed and unbound; today's
reserved slot is untouched. -/
theorem c6_reset_witness :
    resetSlotUpd "2025-10-13"
      { roomId := "r1", date := "2025-10-13", timeSlot := "08:00-10:00",
        status := SlotStatus.reserved, studentId := some "S1",
        bookingId := some "b1" } =
      { roomId := "r1", date := "2025-10-13", timeSlot := "08:00-10:00",
        status := SlotStatus.free, studentId := none, bookingId := none }
    ∧ resetSlotUpd "2025-10-13"
      { roomId := "r1", date := "2025-10-12", timeSlot := "08:00-10:00",
        status := SlotStatus.reserved, studentId := some "S2",
        bookingId := some "b2" } =
      { roomId := "r1", date := "2025-10-12", timeSlot := "08:00-10:00",
        status := SlotStatus.reserved, studentId := some "S2",
        bookingId := some "b2" } :=
  ⟨(c6_daily_reset "2025-10-13" ⟨[], [], []⟩).2.2.2.1 _ (by decide) (by decide),
   (c6_daily_reset "2025-10-13" ⟨[], [], []⟩).2.2.2.2.1 _ (by decide)⟩

/-! ## C10: per-slot enable always re-enables the room record -/

/-- Claim C10: a failure-free per-slot enable call always succeeds and marks
the room record enabled, even when the named slot was not `disabled` and no
slot row changed. -/
theorem c10_slot_enable (today rid ts : String) (db : DB) :
    (slotEnableOp allOkSlotEnable today rid ts db).1 = OpResult.success
    ∧ (∀ rm ∈ (slotEnableOp allOkSlotEnable today rid ts db).2.rooms,
        rm.id = rid → rm.isDisabled = false)
    ∧ ((∀ sl ∈ db.slots, ¬(sl.roomId = rid ∧ sl.date = today ∧
          sl.timeSlot = ts ∧ sl.status = SlotStatus.disabled)) →
        (slotEnableOp allOkSlotEnable today rid ts db).2.slots = db.slots) := by
  have hrooms : (slotEnableOp allOkSlotEnable today rid ts db).2.rooms =
      db.rooms.map (fun r =>
        if r.id = rid then { r with isDisabled := false } else r) := rfl
  have hslots : (slotEnableOp allOkSlotEnable today rid ts db).2.slots =
      db.slots.map (fun sl =>
        if sl.roomId = rid ∧ sl.date = today ∧ sl.timeSlot = ts ∧
            sl.status = SlotStatus.disabled then
          { sl with status := SlotStatus.free }
        else sl) := rfl
  refine ⟨rfl, ?_, ?_⟩
  · intro rm hrm hid
    rw [hrooms, List.mem_map] at hrm
    obtain ⟨r, hr, rfl⟩ := hrm
    by_cases h : r.id = rid
    · rw [if_pos h]
    · exfalso; apply h; rw [if_neg h] at hid; exact hid
  · intro h
    rw [hslots]
    have hcong : ∀ sl ∈ db.slots,
        (if sl.roomId = rid ∧ sl.date = today ∧ sl.timeSlot = ts ∧
            sl.status = SlotStatus.disabled then
          { sl with status := SlotStatus.free }
        else sl) = sl := fun sl hsl => if_neg (h sl hsl)
    rw [List.map_congr_left hcong]
    simp

/-- Witness for C10: the slot is `pending`, so no slot row changes, yet the
call succeeds and the disabled room record is flipped to enabled. -/
theorem c10_slot_enable_witness :
    (slotEnableOp allOkSlotEnable "2025-10-12" "room1" "08:00-10:00" wdb10).1 =
      OpResult.success
    ∧ (slotEnableOp allOkSlotEnable "2025-10-12" "room1" "08:00-10:00"
        wdb10).2.slots = wdb10.slots :=
  ⟨(c10_slot_enable "2025-10-12" "room1" "08:00-10:00" wdb10).1,
   (c10_slot_enable "2025-10-12" "room1" "08:00-10:00" wdb10).2.2 (by decide)⟩

/-- The room flag after the witness call, evaluated directly. -/
theorem c10_slot_enable_room_flag :
    (slotEnableOp allOkSlotEnable "2025-10-12" "room1" "08:00-10:00"
      wdb10).2.rooms = [{ id := "room1", isDisabled := false }] := by decide

/-! ## C1: the booking race -/

/-- Claim C1 evidence: the interleaving in which both `book` calls pass their
availability checks against `raceDB0` before either write lands.  A single
call is exactly the insert-then-bind pipeline (first conjunct); both calls'
checks pass at `raceDB0`; call 2's slot binding applies even though the slot
is already `pending` and bound to `S1` at that moment; afterwards two distinct
`Pending` bookings hold the same slot. -/
theorem c1_race_two_pending_bookings :
    bookOp allOkBook 0 "2025-10-12" "S1" "room1" "08:00-10:00" "b1" raceDB0 =
      (BookResult.success "b1", raceDB1)
    ∧ dailyBookings "2025-10-12" "S2" raceDB0 = []
    ∧ freeSlotRows "room1" "2025-10-12" "08:00-10:00" raceDB0 ≠ []
    ∧ raceDB1.slots =
        [{ roomId := "room1", date := "2025-10-12", timeSlot := "08:00-10:00",
           status := SlotStatus.pending, studentId := some "S1",
           bookingId := none }]
    ∧ freeSlotRows "room1" "2025-10-12" "08:00-10:00" raceDB1 = []
    ∧ raceDB2.slots =
        [{ roomId := "room1", date := "2025-10-12", timeSlot := "08:00-10:00",
           status := SlotStatus.pending, studentId := some "S2",
           bookingId := none }]
    ∧ raceDB2.bookings =
        [{ id := "b1", studentId := "S1", roomId := "room1",
           bookingDate := "2025-10-12", timeSlot := "08:00-10:00",
           status := "Pending", approvedBy := none, approvedAt := none },
         { id := "b2", studentId := "S2", roomId := "room1",
           bookingDate := "2025-10-12", timeSlot := "08:00-10:00",
           status := "Pending", approvedBy := none, approvedAt := none }] := by
  decide

/-! ## C7: partial materialization -/

/-- Claim C7 evidence: with no rows present and the second of the four
default-label inserts failing, the handler reports the storage error and
leaves exactly three of the four labels materialized — neither all labels nor
none. -/
theorem c7_partial_materialization :
    (materializeOp matOracle 0 "room1" "2025-10-12" matDB0).1 =
      MatResult.serverError "Failed to initialize time slots"
    ∧ (materializeOp matOracle 0 "room1" "2025-10-12" matDB0).2.slots.map
        (fun s => s.timeSlot) = ["08:00-10:00", "13:00-15:00", "15:00-17:00"]
    ∧ defaultTimeSlots.length = 4 := by decide

/-! ## C2: the slot/booking invariant -/

/-- Claim C2 counterexample: after `book(S1)` then a `Rejected` decision the
slot is `free` but still bound to `S1`; after `book(S1)` then a decision with
status string `"APPROVED"` the slot is `reserved` while the backing booking's
status is `"APPROVED"`, not `"Approved"`.  Both states are reachable and both
violate the spec-worded invariant. -/
theorem c2_spec_invariant_counterexample :
    (Reach cdb2b ∧ ¬ specSlotBookingInvariant cdb2b)
    ∧ (Reach cdb2c ∧ ¬ specSlotBookingInvariant cdb2c)
    ∧ cdb2b.slots.map (fun sl => (sl.status, sl.studentId)) =
        [(SlotStatus.free, some "S1")] := by
  have h0 : Reach cdb2 := Reach.start cdb2 (by decide)
  have h1 : Reach cdb2a :=
    Reach.step _ _ h0
      (Step.book 0 "2025-10-12" "S1" "room1" "08:00-10:00" "b1" cdb2)
  exact ⟨⟨Reach.step _ _ h1
            (Step.decideBooking "t1" "b1" "Rejected" "L1" cdb2a), by decide⟩,
         ⟨Reach.step _ _ h1
            (Step.decideBooking "t1" "b1" "APPROVED" "L1" cdb2a), by decide⟩,
         by decide⟩

lemma stateInvariant_init (db : DB) (h : InitialState db) : stateInvariant db := by
  obtain ⟨hb, hs⟩ := h
  constructor
  · unfold bookingIdsUnique; rw [hb]; simp
  · intro sl hsl
    obtain ⟨hst, hstu⟩ := hs sl hsl
    refine ⟨?_, ?_, ?_⟩
    · intro hocc
      rcases hst with h1 | h1 <;> rcases hocc with h2 | h2 <;>
        rw [h1] at h2 <;> cases h2
    · intro hp
      rcases hst with h1 | h1 <;> rw [h1] at hp <;> cases hp
    · intro hr
      rcases hst with h1 | h1 <;> rw [h1] at hr <;> cases hr

/-- A slot rewrite that either leaves a row unchanged or moves it out of the
occupied statuses preserves the invariant (bookings untouched). -/
lemma stateInvariant_map_slots (db : DB) (rooms2 : List Room) (f : Slot → Slot)
    (hf : ∀ sl ∈ db.slots, f sl = sl ∨
      ((f sl).status ≠ SlotStatus.pending ∧ (f sl).status ≠ SlotStatus.reserved)) :
    stateInvariant db →
    stateInvariant { db with slots := db.slots.map f, rooms := rooms2 } := by
  rintro ⟨hU, hI⟩
  refine ⟨hU, ?_⟩
  intro sl hsl
  rw [show ({ db with slots := db.slots.map f, rooms := rooms2 } : DB).slots =
    db.slots.map f from rfl, List.mem_map] at hsl
  obtain ⟨sl0, hsl0, rfl⟩ := hsl
  rcases hf sl0 hsl0 with heq | ⟨hp, hr⟩
  · rw [heq]; exact hI sl0 hsl0
  · refine ⟨?_, ?_, ?_⟩
    · intro hocc
      rcases hocc with h | h
      · exact absurd h hp
      · exact absurd h hr
    · intro hp2
      exact absurd hp2 hp
    · intro hr2
      exact absurd hr2 hr

/-! ### Case analyses of the failure-free operations -/

lemma bookOp_allOk_cases (now : Nat) (today sid rid ts bid : String) (db : DB) :
    (bookOp allOkBook now today sid rid ts bid db).2 = db
    ∨ ((∀ b ∈ db.bookings, b.id ≠ bid)
        ∧ (bookOp allOkBook now today sid rid ts bid db).2 =
            bindSlotPending sid rid today ts
              (insertBookingRow bid sid rid today ts db)) := by
  by_cases h1 : sid = "" ∨ rid = "" ∨ ts = ""
  · left; simp [bookOp, h1]
  by_cases h2 : isTimeSlotValid now ts = false
  · left; simp [bookOp, h1, h2]
  by_cases h3 : dailyBookings today sid db = []
  case neg => left; simp [bookOp, h1, h2, h3, allOkBook]
  by_cases h4 : freeSlotRows rid today ts db = []
  · left
    simp only [bookOp, h1, h2, h3, h4, allOkBook, if_false, if_neg,
      not_false_eq_true]
    simp
    cases slotStatusRows rid today ts db <;> simp
  by_cases h5 : db.bookings.any (fun b => decide (b.id = bid)) = true
  · left; simp [bookOp, h1, h2, h3, h4, h5, allOkBook]
  · right
    constructor
    · intro b hb heq
      apply h5
      rw [List.any_eq_true]
      exact ⟨b, hb, by simp [heq]⟩
    · simp [bookOp, h1, h2, h3, h4, h5, allOkBook]

lemma decideOp_allOk_cases (now bid st approver : String) (db : DB) :
    (decideOp allOkDecide now bid st approver db).2 = db
    ∨ ∃ bk rest, db.bookings.filter (fun b => decide (b.id = bid)) = bk :: rest
        ∧ (decideOp allOkDecide now bid st approver db).2 =
            { db with
              bookings := db.bookings.map (decideBookingUpd bid st approver now),
              slots := db.slots.map (decideSlotUpd bk st) } := by
  unfold decideOp
  cases hf : db.bookings.filter (fun b => decide (b.id = bid)) with
  | nil => left; simp [allOkDecide]
  | cons bk rest =>
    right
    exact ⟨bk, rest, rfl, by simp [allOkDecide]⟩

lemma roomDisableOp_allOk_cases (today rid : String) (db : DB) :
    (roomDisableOp allOkRoom today rid db).2 = db
    ∨ (roomDisableOp allOkRoom today rid db).2 =
        { db with
          slots := db.slots.map (fun sl =>
            if sl.roomId = rid ∧ sl.date = today ∧
                sl.status = SlotStatus.free then
              { sl with status := SlotStatus.disabled }
            else sl),
          rooms := db.rooms.map (fun r =>
            if r.id = rid then { r with isDisabled := true } else r) } := by
  by_cases h : 0 < roomSlotsNotFree rid today db
  · left; simp [roomDisableOp, allOkRoom, h]
  · right; simp [roomDisableOp, allOkRoom, h]

lemma roomEnableOp_allOk_cases (today rid : String) (db : DB) :
    (roomEnableOp allOkRoom today rid db).2 =
      { db with
        slots := db.slots.map (fun sl =>
          if sl.roomId = rid ∧ sl.date = today ∧
              sl.status = SlotStatus.disabled then
            { sl with status := SlotStatus.free }
          else sl),
        rooms := db.rooms.map (fun r =>
          if r.id = rid then { r with isDisabled := false } else r) } := by
  simp [roomEnableOp, allOkRoom]

lemma slotDisableOp_allOk_cases (today rid ts : String) (db : DB) :
    (slotDisableOp allOkSlotDisable today rid ts db).2 = db
    ∨ ∃ rooms2, (slotDisableOp allOkSlotDisable today rid ts db).2 =
        { db with
          slots := db.slots.map (fun s =>
            if s.roomId = rid ∧ s.date = today ∧ s.timeSlot = ts then
              { s with status := SlotStatus.disabled }
            else s),
          rooms := rooms2 } := by
  unfold slotDisableOp
  cases hrows : slotStatusRows rid today ts db with
  | nil => left; simp [allOkSlotDisable]
  | cons sl rest =>
    by_cases hst : sl.status = SlotStatus.free
    · right
      simp only [allOkSlotDisable, hst, ne_eq, not_true_eq_false, if_false,
        Bool.true_eq_false, not_false_eq_true, if_true]
      split
      · exact ⟨_, rfl⟩
      · exact ⟨db.rooms, rfl⟩
    · left
      simp [allOkSlotDisable, hst]

lemma slotEnableOp_allOk_cases (today rid ts : String) (db : DB) :
    (slotEnableOp allOkSlotEnable today rid ts db).2 =
      { db with
        slots := db.slots.map (fun sl =>
          if sl.roomId = rid ∧ sl.date = today ∧ sl.timeSlot = ts ∧
              sl.status = SlotStatus.disabled then
            { sl with status := SlotStatus.free }
          else sl),
        rooms := db.rooms.map (fun r =>
          if r.id = rid then { r with isDisabled := false } else r) } := rfl

/-! ### Preservation of the invariant by each failure-free operation -/

lemma stateInvariant_book (now : Nat) (today sid rid ts bid : String) (db : DB)
    (hinv : stateInvariant db) :
    stateInvariant (bookOp allOkBook now today sid rid ts bid db).2 := by
  rcases bookOp_allOk_cases now today sid rid ts bid db with h | ⟨hfresh, h⟩
  · rw [h]; exact hinv
  · rw [h]
    obtain ⟨hU, hI⟩ := hinv
    constructor
    · unfold bookingIdsUnique at hU ⊢
      rw [show (bindSlotPending sid rid today ts
          (insertBookingRow bid sid rid today ts db)).bookings =
        db.bookings ++
          [{ id := bid, studentId := sid, roomId := rid, bookingDate := today,
             timeSlot := ts, status := "Pending", approvedBy := none,
             approvedAt := none }] from rfl]
      rw [List.map_append, List.nodup_append]
      refine ⟨hU, by simp, ?_⟩
      intro a ha hb
      simp only [List.map_cons, List.map_nil, List.mem_singleton] at hb
      rw [List.mem_map] at ha
      obtain ⟨b, hbmem, rfl⟩ := ha
      exact hfresh b hbmem hb
    · intro sl hsl
      rw [show (bindSlotPending sid rid today ts
          (insertBookingRow bid sid rid today ts db)).slots =
        db.slots.map (fun sl =>
          if sl.roomId = rid ∧ sl.date = today ∧ sl.timeSlot = ts then
            { sl with status := SlotStatus.pending, studentId := some sid }
          else sl) from rfl, List.mem_map] at hsl
      obtain ⟨sl0, hsl0, rfl⟩ := hsl
      have hbmem : ∀ b ∈ db.bookings,
          b ∈ (bindSlotPending sid rid today ts
            (insertBookingRow bid sid rid today ts db)).bookings := by
        intro b hb
        rw [show (bindSlotPending sid rid today ts
            (insertBookingRow bid sid rid today ts db)).bookings =
          db.bookings ++ _ from rfl]
        exact List.mem_append_left _ hb
      by_cases hm : sl0.roomId = rid ∧ sl0.date = today ∧ sl0.timeSlot = ts
      · rw [if_pos hm]
        obtain ⟨hm1, hm2, hm3⟩ := hm
        refine ⟨fun _ => by simp, ?_, ?_⟩
        · intro _
          refine ⟨newBookingRow bid sid rid today ts, ?_, ?_⟩
          · rw [show (bindSlotPending sid rid today ts
                (insertBookingRow bid sid rid today ts db)).bookings =
              db.bookings ++ _ from rfl]
            exact List.mem_append_right _ (by simp)
          · exact ⟨⟨hm1.symm, hm2.symm, hm3.symm, rfl⟩, rfl⟩
        · intro hr
          exact absurd hr (by simp)
      · rw [if_neg hm]
        obtain ⟨hocc0, hpend0, hres0⟩ := hI sl0 hsl0
        refine ⟨hocc0, ?_, ?_⟩
        · intro hp
          obtain ⟨b, hb, hbm, hbst⟩ := hpend0 hp
          exact ⟨b, hbmem b hb, hbm, hbst⟩
        · intro hr
          obtain ⟨b, hb, hbm, hbst⟩ := hres0 hr
          exact ⟨b, hbmem b hb, hbm, hbst⟩

lemma decidedStatusToSlot_not_pending (st : String) :
    decidedStatusToSlot st ≠ SlotStatus.pending := by
  unfold decidedStatusToSlot
  split <;> simp

lemma decidedStatusToSlot_reserved (st : String)
    (h : decidedStatusToSlot st = SlotStatus.reserved) :
    jsToLowerCase st = "approved" := by
  unfold decidedStatusToSlot at h
  by_cases hc : jsToLowerCase st = "approved"
  · exact hc
  · rw [if_neg hc] at h; cases h

lemma decideBookingUpd_id (bid st approver now : String) (b : Booking) :
    (decideBookingUpd bid st approver now b).id = b.id := by
  unfold decideBookingUpd; split <;> rfl

lemma stateInvariant_decide (now bid st approver : String) (db : DB)
    (hinv : stateInvariant db) :
    stateInvariant (decideOp allOkDecide now bid st approver db).2 := by
  rcases decideOp_allOk_cases now bid st approver db with h | ⟨bk, rest, hf, h⟩
  · rw [h]; exact hinv
  · rw [h]
    obtain ⟨hU, hI⟩ := hinv
    have hbk : bk ∈ db.bookings ∧ bk.id = bid := by
      have hmem : bk ∈ db.bookings.filter (fun b => decide (b.id = bid)) := by
        rw [hf]; exact List.mem_cons_self _ _
      rw [List.mem_filter] at hmem
      exact ⟨hmem.1, by simpa using hmem.2⟩
    constructor
    · unfold bookingIdsUnique at hU ⊢
      rw [show ({ db with
          bookings := db.bookings.map (decideBookingUpd bid st approver now),
          slots := db.slots.map (decideSlotUpd bk st) } : DB).bookings =
        db.bookings.map (decideBookingUpd bid st approver now) from rfl]
      rw [List.map_map]
      rw [List.map_congr_left
        (fun b _ => by
          simp only [Function.comp_apply, decideBookingUpd_id] : ∀ b ∈ db.bookings,
            ((fun b => b.id) ∘ decideBookingUpd bid st approver now) b =
              (fun b => b.id) b)]
      exact hU
    · intro sl hsl
      rw [show ({ db with
          bookings := db.bookings.map (decideBookingUpd bid st approver now),
          slots := db.slots.map (decideSlotUpd bk st) } : DB).slots =
        db.slots.map (decideSlotUpd bk st) from rfl, List.mem_map] at hsl
      obtain ⟨sl0, hsl0, rfl⟩ := hsl
      by_cases hm : bookingMatchesSlot bk sl0
      · have hupd : decideSlotUpd bk st sl0 =
            { sl0 with status := decidedStatusToSlot st } := by
          unfold decideSlotUpd; rw [if_pos hm]
        rw [hupd]
        obtain ⟨hm1, hm2, hm3, hm4⟩ := hm
        refine ⟨?_, ?_, ?_⟩
        · intro _
          rw [show ({ sl0 with
              status := decidedStatusToSlot st } : Slot).studentId =
            sl0.studentId from rfl, ← hm4]
          simp
        · intro hp
          exact absurd hp (decidedStatusToSlot_not_pending st)
        · intro hr
          have happ : jsToLowerCase st = "approved" :=
            decidedStatusToSlot_reserved st hr
          refine ⟨decideBookingUpd bid st approver now bk,
            List.mem_map_of_mem _ hbk.1, ?_, ?_⟩
          · unfold decideBookingUpd
            rw [if_pos hbk.2]
            exact ⟨hm1, hm2, hm3, hm4⟩
          · unfold decideBookingUpd
            rw [if_pos hbk.2]
            exact happ
      · have hupd : decideSlotUpd bk st sl0 = sl0 := by
          unfold decideSlotUpd; rw [if_neg hm]
        rw [hupd]
        obtain ⟨hocc0, hpend0, hres0⟩ := hI sl0 hsl0
        have hkeep : ∀ b ∈ db.bookings, bookingMatchesSlot b sl0 →
            decideBookingUpd bid st approver now b = b := by
          intro b hb hbm
          unfold decideBookingUpd
          rw [if_neg ?_]
          intro he
          have hbbk : b = bk :=
            List.inj_on_of_nodup_map hU hb hbk.1 (by rw [he, hbk.2])
          exact hm (hbbk ▸ hbm)
        refine ⟨hocc0, ?_, ?_⟩
        · intro hp
          obtain ⟨b, hb, hbm, hbst⟩ := hpend0 hp
          refine ⟨decideBookingUpd bid st approver now b,
            List.mem_map_of_mem _ hb, ?_⟩
          rw [hkeep b hb hbm]
          exact ⟨hbm, hbst⟩
        · intro hr
          obtain ⟨b, hb, hbm, hbst⟩ := hres0 hr
          refine ⟨decideBookingUpd bid st approver now b,
            List.mem_map_of_mem _ hb, ?_⟩
          rw [hkeep b hb hbm]
          exact ⟨hbm, hbst⟩

lemma stateInvariant_step {db db2 : DB} (h : Step db db2)
    (hinv : stateInvariant db) : stateInvariant db2 := by
  cases h with
  | book now today sid rid ts bid db =>
    exact stateInvariant_book now today sid rid ts bid db hinv
  | decideBooking now bid st approver db =>
    exact stateInvariant_decide now bid st approver db hinv
  | roomDisable today rid db =>
    rcases roomDisableOp_allOk_cases today rid db with h | h
    · rw [h]; exact hinv
    · rw [h]
      refine stateInvariant_map_slots db _ _ ?_ hinv
      intro sl hsl
      by_cases hc : sl.roomId = rid ∧ sl.date = today ∧
          sl.status = SlotStatus.free
      · right; rw [if_pos hc]; exact ⟨by simp, by simp⟩
      · left; rw [if_neg hc]
  | roomEnable today rid db =>
    rw [roomEnableOp_allOk_cases today rid db]
    refine stateInvariant_map_slots db _ _ ?_ hinv
    intro sl hsl
    by_cases hc : sl.roomId = rid ∧ sl.date = today ∧
        sl.status = SlotStatus.disabled
    · right; rw [if_pos hc]; exact ⟨by simp, by simp⟩
    · left; rw [if_neg hc]
  | slotDisable today rid ts db =>
    rcases slotDisableOp_allOk_cases today rid ts db with h | ⟨rooms2, h⟩
    · rw [h]; exact hinv
    · rw [h]
      refine stateInvariant_map_slots db _ _ ?_ hinv
      intro sl hsl
      by_cases hc : sl.roomId = rid ∧ sl.date = today ∧ sl.timeSlot = ts
      · right; rw [if_pos hc]; exact ⟨by simp, by simp⟩
      · left; rw [if_neg hc]
  | slotEnable today rid ts db =>
    rw [slotEnableOp_allOk_cases today rid ts db]
    refine stateInvariant_map_slots db _ _ ?_ hinv
    intro sl hsl
    by_cases hc : sl.roomId = rid ∧ sl.date = today ∧ sl.timeSlot = ts ∧
        sl.status = SlotStatus.disabled
    · right; rw [if_pos hc]; exact ⟨by simp, by simp⟩
    · left; rw [if_neg hc]
  | reset tomorrowStr db =>
    have hshape : resetOp tomorrowStr db =
        { db with slots := db.slots.map (resetSlotUpd tomorrowStr),
                  rooms := db.rooms } := rfl
    rw [hshape]
    refine stateInvariant_map_slots db _ _ ?_ hinv
    intro sl hsl
    unfold resetSlotUpd
    by_cases hc : sl.date = tomorrowStr ∧
        (sl.status = SlotStatus.pending ∨ sl.status = SlotStatus.reserved)
    · right; rw [if_pos hc]; exact ⟨by simp, by simp⟩
    · left; rw [if_neg hc]

/-- Claim C2 (amended): in every store reachable through sequentially
executed, failure-free public operations, an occupied (`pending` or
`reserved`) slot has a non-null bound student; every `pending` slot is backed
by a `Pending` booking matching it on room, date, time slot and student; and
every `reserved` slot is backed by a matching booking whose status lowercases
to `approved`. -/
theorem c2_reachable_invariant (db : DB) (h : Reach db) :
    reachableSlotInvariant db := by
  have hfull : stateInvariant db := by
    induction h with
    | start db h0 => exact stateInvariant_init db h0
    | step db db2 hr hstep ih => exact stateInvariant_step hstep ih
  exact hfull.2

/-- Witness for C2: the invariant evaluated in the state reached by one
successful booking. -/
theorem c2_reachable_invariant_witness : reachableSlotInvariant cdb2a :=
  c2_reachable_invariant cdb2a
    (Reach.step _ _ (Reach.start cdb2 (by decide))
      (Step.book 0 "2025-10-12" "S1" "room1" "08:00-10:00" "b1" cdb2))

/-! ## C3: compensation on a failed slot update -/

/-- Claim C3 counterexample: when the compensating delete itself fails, the
caller still gets the original slot-update error, but the just-created
booking row is left behind — not zero rows for the attempt. -/
theorem c3_compensation_counterexample :
    (bookOp failUpdateAndRollback 0 "2025-10-12" "S1" "room1" "08:00-10:00"
      "b1" cdb3).1 = BookResult.serverError "Booking update failed"
    ∧ (bookOp failUpdateAndRollback 0 "2025-10-12" "S1" "room1" "08:00-10:00"
        "b1" cdb3).2.bookings =
      [newBookingRow "b1" "S1" "room1" "2025-10-12" "08:00-10:00"]
    ∧ (bookOp failUpdateAndRollback 0 "2025-10-12" "S1" "room1" "08:00-10:00"
        "b1" cdb3).2.bookings ≠ [] := by decide

/-- Claim C3 (amended): when the insert succeeded and the slot update fails,
the caller always receives the original slot-update error (never the
compensation outcome) and the slot table is untouched; the compensating
delete is best-effort — when it succeeds no booking row of the attempt
remains, and when it fails the row remains. -/
theorem c3_compensation (o : BookOracle) (now : Nat)
    (today sid rid ts bid : String) (db : DB)
    (hins : o.insertOk = true) (hupd : o.updateOk = false)
    (hsid : ¬ sid = "") (hrid : ¬ rid = "") (hts : ¬ ts = "")
    (hvalid : isTimeSlotValid now ts = true)
    (hdy : o.dailyOk = true) (hsl : o.slotOk = true)
    (hnodaily : dailyBookings today sid db = [])
    (hfree : freeSlotRows rid today ts db ≠ [])
    (hfresh : ∀ b ∈ db.bookings, b.id ≠ bid) :
    (bookOp o now today sid rid ts bid db).1 =
      BookResult.serverError "Booking update failed"
    ∧ (bookOp o now today sid rid ts bid db).2.slots = db.slots
    ∧ (o.rollbackOk = true →
        (bookOp o now today sid rid ts bid db).2.bookings = db.bookings)
    ∧ (o.rollbackOk = false →
        (bookOp o now today sid rid ts bid db).2.bookings =
          db.bookings ++ [newBookingRow bid sid rid today ts]) := by
  have hany : db.bookings.any (fun b => decide (b.id = bid)) = false := by
    rw [List.any_eq_false]
    intro b hb
    simp only [decide_eq_true_eq]
    exact hfresh b hb
  have hstep : bookOp o now today sid rid ts bid db =
      (BookResult.serverError "Booking update failed",
       if o.rollbackOk then
         deleteBookingRow bid (insertBookingRow bid sid rid today ts db)
       else insertBookingRow bid sid rid today ts db) := by
    simp [bookOp, hvalid, hdy, hsl, hins, hupd, hnodaily, hfree, hany,
      hsid, hrid, hts]
  rw [hstep]
  have hdel : (deleteBookingRow bid
      (insertBookingRow bid sid rid today ts db)).bookings = db.bookings := by
    unfold deleteBookingRow insertBookingRow
    rw [show ({ db with bookings := db.bookings ++
        [newBookingRow bid sid rid today ts] } : DB).bookings =
      db.bookings ++ [newBookingRow bid sid rid today ts] from rfl]
    rw [List.filter_append]
    have h1 : db.bookings.filter (fun b => decide (b.id ≠ bid)) =
        db.bookings :=
      List.filter_eq_self.mpr (fun b hb => by simpa using hfresh b hb)
    have h2 : [newBookingRow bid sid rid today ts].filter
        (fun b => decide (b.id ≠ bid)) = [] := by
      simp [newBookingRow]
    rw [h1, h2, List.append_nil]
  refine ⟨rfl, ?_, ?_, ?_⟩
  · cases hrb : o.rollbackOk <;>
      simp [hrb, deleteBookingRow, insertBookingRow]
  · intro hrb
    rw [hrb]
    simpa using hdel
  · intro hrb
    rw [hrb]
    simp [insertBookingRow]

/-- Witness for C3 (amended) at a concrete store with the delete
succeeding. -/
theorem c3_compensation_witness :
    (bookOp failUpdateOnly 0 "2025-10-12" "S1" "room1" "08:00-10:00" "b1"
      cdb3).1 = BookResult.serverError "Booking update failed"
    ∧ (bookOp failUpdateOnly 0 "2025-10-12" "S1" "room1" "08:00-10:00" "b1"
        cdb3).2.bookings = cdb3.bookings :=
  ⟨(c3_compensation failUpdateOnly 0 "2025-10-12" "S1" "room1" "08:00-10:00"
      "b1" cdb3 rfl rfl (by decide) (by decide) (by decide) (by decide) rfl rfl
      (by decide) (by decide) (by decide)).1,
   (c3_compensation failUpdateOnly 0 "2025-10-12" "S1" "room1" "08:00-10:00"
      "b1" cdb3 rfl rfl (by decide) (by decide) (by decide) (by decide) rfl rfl
      (by decide) (by decide) (by decide)).2.2.1 rfl⟩

/-! ## C4: decision semantics -/

lemma decideOp_notFound_red (o : DecideOracle) (hget : o.getOk = true)
    (now bid st approver : String) (db : DB)
    (hf : db.bookings.filter (fun b => decide (b.id = bid)) = []) :
    decideOp o now bid st approver db = (DecideResult.notFound, db) := by
  unfold decideOp
  rw [hget, hf]
  simp

lemma decideOp_found_red (o : DecideOracle) (hget : o.getOk = true)
    (hupd : o.updateOk = true) (now bid st approver : String) (db : DB)
    (bk : Booking) (rest : List Booking)
    (hf : db.bookings.filter (fun b => decide (b.id = bid)) = bk :: rest) :
    decideOp o now bid st approver db =
      (DecideResult.success,
       { db with
          bookings := db.bookings.map (decideBookingUpd bid st approver now),
          slots := if o.slotOk then db.slots.map (decideSlotUpd bk st)
                   else db.slots }) := by
  unfold decideOp
  rw [hget, hf]
  simp [hupd]

/-- Claim C4 counterexample: deciding with the status string `"APPROVED"`
(not equal to `"Approved"`) still writes `reserved` to the bound slot, because
the handler compares case-insensitively; the claim's "free for anything else
than Approved" fails here. -/
theorem c4_decide_counterexample :
    ("APPROVED" : String) ≠ "Approved"
    ∧ (decideOp allOkDecide "t1" "b1" "APPROVED" "L1" cdb4).1 =
        DecideResult.success
    ∧ (decideOp allOkDecide "t1" "b1" "APPROVED" "L1" cdb4).2.slots.map
        (fun sl => sl.status) = [SlotStatus.reserved] := by decide

/-- Claim C4 (amended): with the booking fetch and booking update succeeding,
`decide` answers `NotFound` exactly when no booking with the id exists;
otherwise it rewrites the booking row (status, approver, decision timestamp),
writes the derived status — `reserved` exactly when the decision status
lowercases to `"approved"`, `free` otherwise — to the slot matching the
booking's room/date/time-slot/student, and, when that slot write fails, the
booking update stays in place and the call still reports success. -/
theorem c4_decide_status (slotOk : Bool) (now bid st approver : String)
    (db : DB) :
    ((decideOp ⟨true, true, slotOk⟩ now bid st approver db).1 =
        DecideResult.notFound ↔ ∀ b ∈ db.bookings, b.id ≠ bid)
    ∧ (∀ bk rest,
        db.bookings.filter (fun b => decide (b.id = bid)) = bk :: rest →
        (decideOp ⟨true, true, slotOk⟩ now bid st approver db).1 =
          DecideResult.success
        ∧ (decideOp ⟨true, true, slotOk⟩ now bid st approver db).2.bookings =
            db.bookings.map (decideBookingUpd bid st approver now)
        ∧ (slotOk = true →
            (decideOp ⟨true, true, slotOk⟩ now bid st approver db).2.slots =
              db.slots.map (decideSlotUpd bk st))
        ∧ (slotOk = false →
            (decideOp ⟨true, true, slotOk⟩ now bid st approver db).2.slots =
              db.slots))
    ∧ (decidedStatusToSlot st = SlotStatus.reserved ↔
        jsToLowerCase st = "approved") := by
  refine ⟨?_, ?_, ?_⟩
  · cases hf : db.bookings.filter (fun b => decide (b.id = bid)) with
    | nil =>
      rw [decideOp_notFound_red ⟨true, true, slotOk⟩ rfl now bid st approver
        db hf]
      simp only [true_iff]
      intro b hb heq
      have := List.filter_eq_nil_iff.mp hf b hb
      simp [heq] at this
    | cons bk rest =>
      rw [decideOp_found_red ⟨true, true, slotOk⟩ rfl rfl now bid st approver
        db bk rest hf]
      constructor
      · intro h; cases h
      · intro hall
        exfalso
        have hmem : bk ∈ db.bookings.filter (fun b => decide (b.id = bid)) := by
          rw [hf]; exact List.mem_cons_self _ _
        rw [List.mem_filter] at hmem
        exact hall bk hmem.1 (by simpa using hmem.2)
  · intro bk rest hf
    rw [decideOp_found_red ⟨true, true, slotOk⟩ rfl rfl now bid st approver
      db bk rest hf]
    refine ⟨rfl, rfl, ?_, ?_⟩
    · intro h; rw [h]; simp
    · intro h; rw [h]; simp
  · constructor
    · exact decidedStatusToSlot_reserved st
    · intro h; unfold decidedStatusToSlot; rw [if_pos h]

/-- Witness for C4 (amended): a found booking is decided successfully, the
slot table is untouched when the slot write fails, and an absent id is
`NotFound`. -/
theorem c4_decide_status_witness :
    (decideOp ⟨true, true, true⟩ "t1" "b1" "Rejected" "L1" cdb4).1 =
      DecideResult.success
    ∧ (decideOp ⟨true, true, false⟩ "t1" "b1" "Rejected" "L1" cdb4).2.slots =
        cdb4.slots
    ∧ (decideOp ⟨true, true, true⟩ "t1" "b9" "Rejected" "L1" cdb4).1 =
        DecideResult.notFound :=
  ⟨((c4_decide_status true "t1" "b1" "Rejected" "L1" cdb4).2.1
      (newBookingRow "b1" "S1" "room1" "2025-10-12" "08:00-10:00") []
      (by decide)).1,
   ((c4_decide_status false "t1" "b1" "Rejected" "L1" cdb4).2.1
      (newBookingRow "b1" "S1" "room1" "2025-10-12" "08:00-10:00") []
      (by decide)).2.2.2 rfl,
   (c4_decide_status true "t1" "b9" "Rejected" "L1" cdb4).1.mpr (by decide)⟩

/-! ## C5: room-level disable -/

/-- Claim C5 counterexample: a room whose only slot today is already
`disabled` — hence non-occupied — is rejected as a conflict, because the
precondition counts every row with `status != 'free'`, `disabled` included. -/
theorem c5_room_disable_counterexample :
    cdb5.slots.all (fun sl => decide (sl.status = SlotStatus.free ∨
      sl.status = SlotStatus.disabled)) = true
    ∧ roomDisableOp allOkRoom "2025-10-12" "room1" cdb5 =
        (OpResult.conflict "Cannot disable room with booked or pending slots",
         cdb5) := by decide

/-- Claim C5 (amended): a failure-free room disable succeeds exactly when
every one of the room's slots for the current date is `free` (not merely
non-occupied), marking the room disabled and all those slots disabled and
leaving other rooms' slots in place; it is rejected as a conflict whenever
any slot of the room for the date is pending, reserved — or disabled. -/
theorem c5_room_disable (today rid : String) (db : DB) :
    ((∀ sl ∈ db.slots, sl.roomId = rid ∧ sl.date = today →
        sl.status = SlotStatus.free) →
      (roomDisableOp allOkRoom today rid db).1 = OpResult.success
      ∧ (∀ sl ∈ (roomDisableOp allOkRoom today rid db).2.slots,
          sl.roomId = rid ∧ sl.date = today →
          sl.status = SlotStatus.disabled)
      ∧ (∀ rm ∈ (roomDisableOp allOkRoom today rid db).2.rooms,
          rm.id = rid → rm.isDisabled = true)
      ∧ (∀ sl ∈ db.slots, ¬(sl.roomId = rid ∧ sl.date = today) →
          sl ∈ (roomDisableOp allOkRoom today rid db).2.slots))
    ∧ ((∃ sl ∈ db.slots, sl.roomId = rid ∧ sl.date = today ∧
          sl.status ≠ SlotStatus.free) →
        roomDisableOp allOkRoom today rid db =
          (OpResult.conflict "Cannot disable room with booked or pending slots",
           db)) := by
  constructor
  · intro hall
    have hcount : roomSlotsNotFree rid today db = 0 := by
      unfold roomSlotsNotFree
      rw [List.countP_eq_zero]
      intro sl hsl
      simp only [decide_eq_true_eq, not_and, ne_eq, not_not]
      intro h1 h2
      exact hall sl hsl ⟨h1, h2⟩
    have hred : roomDisableOp allOkRoom today rid db =
        (OpResult.success,
         { db with
            slots := db.slots.map (fun sl =>
              if sl.roomId = rid ∧ sl.date = today ∧
                  sl.status = SlotStatus.free then
                { sl with status := SlotStatus.disabled }
              else sl),
            rooms := db.rooms.map (fun r =>
              if r.id = rid then { r with isDisabled := true } else r) }) := by
      simp [roomDisableOp, allOkRoom, hcount]
    rw [hred]
    refine ⟨rfl, ?_, ?_, ?_⟩
    · intro sl hsl hkey
      simp only [List.mem_map] at hsl
      obtain ⟨sl0, hsl0, rfl⟩ := hsl
      by_cases hc : sl0.roomId = rid ∧ sl0.date = today ∧
          sl0.status = SlotStatus.free
      · rw [if_pos hc]
      · rw [if_neg hc] at hkey ⊢
        exact absurd ⟨hkey.1, hkey.2, hall sl0 hsl0 hkey⟩ hc
    · intro rm hrm hid
      simp only [List.mem_map] at hrm
      obtain ⟨r, hr, rfl⟩ := hrm
      by_cases h : r.id = rid
      · rw [if_pos h]
      · exfalso; apply h; rw [if_neg h] at hid; exact hid
    · intro sl hsl hnk
      have hid2 : (if sl.roomId = rid ∧ sl.date = today ∧
          sl.status = SlotStatus.free then
            { sl with status := SlotStatus.disabled } else sl) = sl :=
        if_neg (fun hc => hnk ⟨hc.1, hc.2.1⟩)
      rw [show ({ db with
          slots := db.slots.map (fun sl =>
            if sl.roomId = rid ∧ sl.date = today ∧
                sl.status = SlotStatus.free then
              { sl with status := SlotStatus.disabled }
            else sl),
          rooms := db.rooms.map (fun r =>
            if r.id = rid then { r with isDisabled := true } else r) } :
          DB).slots = db.slots.map _ from rfl]
      exact hid2 ▸ List.mem_map_of_mem _ hsl
  · rintro ⟨sl, hsl, h1, h2, h3⟩
    have hcount : 0 < roomSlotsNotFree rid today db := by
      unfold roomSlotsNotFree
      rw [List.countP_pos_iff]
      exact ⟨sl, hsl, by simp [h1, h2, h3]⟩
    simp [roomDisableOp, allOkRoom, hcount]

/-- Witness for C5 (amended): an all-free room disables successfully; the
disabled-slot room from the counterexample is rejected. -/
theorem c5_room_disable_witness :
    (roomDisableOp allOkRoom "2025-10-12" "room1" wdb5).1 = OpResult.success
    ∧ roomDisableOp allOkRoom "2025-10-12" "room1" cdb5 =
        (OpResult.conflict "Cannot disable room with booked or pending slots",
         cdb5) :=
  ⟨((c5_room_disable "2025-10-12" "room1" wdb5).1 (by decide)).1,
   (c5_room_disable "2025-10-12" "room1" cdb5).2 (by decide)⟩

/-! ## C8: refined unavailability messages -/

/-- Claim C8 counterexample: a `disabled`, unbound slot is rejected with the
generic `"Time slot not available"` — none of the three refined reasons. -/
theorem c8_generic_message_counterexample :
    (bookOp allOkBook 0 "2025-10-12" "S1" "room1" "08:00-10:00" "b1" cdb8).1 =
      BookResult.slotUnavailable "Time slot not available"
    ∧ cdb8.slots.map (fun sl => sl.status) = [SlotStatus.disabled]
    ∧ ("Time slot not available" : String) ≠
        "Time slot is already pending approval"
    ∧ ("Time slot not available" : String) ≠ "Time slot is already reserved"
    ∧ ("Time slot not available" : String) ≠
        "Time slot is already booked by another student" := by decide

/-- Claim C8 (amended): a book call that reaches the availability rejection
returns the message derived from the slot row: "already pending approval"
when the status is `pending`, "already reserved" when `reserved`, "already
booked by another student" when the row is otherwise bound to a (non-empty)
student, and the generic "Time slot not available" for the remaining
unavailable states (a disabled, unbound row). -/
theorem c8_refined_messages (now : Nat) (today sid rid ts bid : String)
    (db : DB) (sl : Slot) (rest : List Slot)
    (hsid : ¬ sid = "") (hrid : ¬ rid = "") (hts : ¬ ts = "")
    (hvalid : isTimeSlotValid now ts = true)
    (hnodaily : dailyBookings today sid db = [])
    (hnofree : freeSlotRows rid today ts db = [])
    (hrow : slotStatusRows rid today ts db = sl :: rest) :
    bookOp allOkBook now today sid rid ts bid db =
      (BookResult.slotUnavailable (slotUnavailableMessage sl), db)
    ∧ (sl.status = SlotStatus.pending →
        slotUnavailableMessage sl = "Time slot is already pending approval")
    ∧ (sl.status = SlotStatus.reserved →
        slotUnavailableMessage sl = "Time slot is already reserved")
    ∧ (sl.status ≠ SlotStatus.pending → sl.status ≠ SlotStatus.reserved →
        sl.studentId ≠ none → sl.studentId ≠ some "" →
        slotUnavailableMessage sl =
          "Time slot is already booked by another student")
    ∧ (sl.status ≠ SlotStatus.pending → sl.status ≠ SlotStatus.reserved →
        (sl.studentId = none ∨ sl.studentId = some "") →
        slotUnavailableMessage sl = "Time slot not available") := by
  refine ⟨?_, ?_, ?_, ?_, ?_⟩
  · simp [bookOp, allOkBook, hsid, hrid, hts, hvalid, hnodaily, hnofree, hrow]
  · intro h; unfold slotUnavailableMessage; rw [if_pos h]
  · intro h
    unfold slotUnavailableMessage
    rw [if_neg (by rw [h]; simp), if_pos h]
  · intro h1 h2 h3 h4
    unfold slotUnavailableMessage
    rw [if_neg h1, if_neg h2, if_pos ⟨h3, h4⟩]
  · intro h1 h2 h3
    unfold slotUnavailableMessage
    rw [if_neg h1, if_neg h2, if_neg ?_]
    rintro ⟨ha, hb⟩
    rcases h3 with h | h
    · exact ha h
    · exact hb h

/-- Witness for C8 (amended): booking a slot that is pending for another
student yields the "already pending approval" message. -/
theorem c8_refined_messages_witness :
    bookOp allOkBook 0 "2025-10-12" "S1" "room1" "08:00-10:00" "b1" wdb8 =
      (BookResult.slotUnavailable "Time slot is already pending approval",
       wdb8) := by
  have h := c8_refined_messages 0 "2025-10-12" "S1" "room1" "08:00-10:00" "b1"
    wdb8 wdb8slot [] (by decide) (by decide) (by decide) (by decide)
    (by decide) (by decide) (by decide)
  rw [← h.2.1 rfl]
  exact h.1
